import Mathlib

/-!
Shallow embedding of the sea-otter Q&A bot (`ai.py`).

Strings are modelled as `List Char` (Python `len`/indexing count Unicode
code points, as `List Char` does).  Pure string helpers (`clean`, `short`,
`rewrite_for_topic`, `rule_answer`, `is_sea_otter_question`,
`seems_relevant`) are translated directly.  Each outbound HTTP call is
modelled by a `Fetch` value: either the request raised (network error or
timeout) or it produced a response with an `ok` flag and a body that
either parsed as JSON or raised on parsing.  The thread-pool race in
`web_lookup` is modelled by an explicit completion order: the list of
adapters in the order in which `as_completed` yielded their futures
before the global deadline (a strict prefix of a permutation when the
deadline cut the race short).  `random.choice` over the refusal pool is
modelled by an explicit index `Fin 3`.  Every Python function translated
here is total, which reflects that the original swallows all exceptions
on these paths.
-/

/-- Python `needle in hay` test helper: is `n` a prefix of `t`? -/
def isPref : List Char → List Char → Bool
  | [], _ => true
  | _ :: _, [] => false
  | a :: as, b :: bs => a == b && isPref as bs

/-- Python substring containment `n in h`. -/
def isSubstr (n : List Char) : List Char → Bool
  | [] => isPref n []
  | c :: t => isPref n (c :: t) || isSubstr n t

/-- Python `str.lower()` (keyword matching in the source is ASCII-only). -/
def lower (l : List Char) : List Char := l.map Char.toLower

/-- Python `str.strip()`: drop whitespace from both ends. -/
def stripL (l : List Char) : List Char :=
  ((l.dropWhile Char.isWhitespace).reverse.dropWhile Char.isWhitespace).reverse

/-- Chunks of `l` between whitespace separators (empty chunks included),
as produced by splitting on every whitespace character. -/
def split_chunks (l : List Char) : List (List Char) :=
  l.foldr
    (fun c acc =>
      if c.isWhitespace then [] :: acc
      else
        match acc with
        | [] => [[c]]
        | w :: rest => (c :: w) :: rest)
    [[]]

/-- Python `str.split()` with no argument: split on whitespace runs,
dropping empty chunks. -/
def py_split (l : List Char) : List (List Char) :=
  (split_chunks l).filter (fun w => !w.isEmpty)

/-- Python `" ".join(text.split())` as used in `short`. -/
def join_words (l : List Char) : List Char :=
  List.intercalate [' '] (py_split l)

/-- `ai.py` line 18, `short`: "Return a compact, single-line, short
message."  Collapses whitespace and truncates to `limit` characters,
replacing the tail with an ellipsis when the text is longer. -/
def short (text : List Char) (limit : Nat := 240) : List Char :=
  if (join_words text).length > limit then (join_words text).take (limit - 1) ++ ['…']
  else join_words text

/-- Python `re.sub(r"[?!.]+$", "", q)`: drop the trailing run of
`?`, `!`, `.` characters. -/
def drop_trailing_punct (q : List Char) : List Char :=
  (q.reverse.dropWhile (fun c => c == '?' || c == '!' || c == '.')).reverse

/-- Worker for `re.sub(r"\s+", " ", q)`: the flag records whether the
previous character was whitespace (so a run emits a single space). -/
def sub_ws_aux : Bool → List Char → List Char
  | _, [] => []
  | prevWs, c :: cs =>
    if c.isWhitespace then
      if prevWs then sub_ws_aux true cs else ' ' :: sub_ws_aux true cs
    else c :: sub_ws_aux false cs

/-- Python `re.sub(r"\s+", " ", q)`: replace each whitespace run by one
space. -/
def sub_ws (l : List Char) : List Char := sub_ws_aux false l

/-- `ai.py` line 11, `clean`: "Trim whitespace and trailing punctuation."
strip, then drop trailing `[?!.]+`, then collapse whitespace runs. -/
def clean (q : List Char) : List Char := sub_ws (drop_trailing_punct (stripL q))

/-- `ai.py` line 23, `rewrite_for_topic`: rewrite common sea-otter
questions to tighter topics. -/
def rewrite_for_topic (q : List Char) : List Char :=
  if isSubstr "sea otter".toList (lower q) || isSubstr "sea otters".toList (lower q)
      || isSubstr "otters".toList (lower q) then
    if ["predator", "predators", "enemy", "enemies"].any
        (fun w => isSubstr w.toList (lower q)) then
      "Sea otter predators".toList
    else if ["decline", "drivers", "endangered", "threats",
             "why decreasing", "why declining", "reasons for decline",
             "causes of decline"].any (fun w => isSubstr w.toList (lower q)) then
      "current threats to sea otters".toList
    else if ["diet", "eat", "food"].any (fun w => isSubstr w.toList (lower q)) then
      "Sea otter diet".toList
    else if ["habitat", "live", "where do"].any (fun w => isSubstr w.toList (lower q)) then
      "Sea otter habitat".toList
    else if ["lifespan", "how long"].any (fun w => isSubstr w.toList (lower q)) then
      "Sea otter lifespan".toList
    else q
  else q

/-- `ai.py` line 45, `HELP_ANSWER` (verbatim). -/
def HELP_ANSWER : List Char :=
  ("If you see a sea otter that looks sick, injured, or in trouble:\n" ++
   "• Keep a safe distance and do not touch or move it.\n" ++
   "• Keep dogs and people away from the animal.\n" ++
   "• Call your local wildlife rescue / marine mammal center or stranding hotline.\n" ++
   "• Note the exact location and what the otter was doing so you can tell rescuers.\n" ++
   "Never try to feed or keep a wild sea otter as a pet.").toList

/-- `ai.py` line 54, `PREDATORS_ANSWER` (verbatim). -/
def PREDATORS_ANSWER : List Char :=
  ("Main predators of sea otters are great white sharks and orcas (killer whales). " ++
   "Pups may be taken by bald eagles; on land, occasionally coyotes or bears. " ++
   "Historically, humans were the largest threat during the fur trade.").toList

/-- `ai.py` line 60, `DRIVERS_ANSWER` (verbatim). -/
def DRIVERS_ANSWER : List Char :=
  ("Current drivers of sea otter decline include oil spills; entanglement in fishing gear; " ++
   "diseases from land runoff (e.g., Toxoplasma); prey depletion/urchin barrens with kelp loss; " ++
   "predation in some regions (sharks/orcas); pollution and disturbance; and climate-driven habitat change.").toList

/-- `ai.py` lines 70-72: the help / rescue trigger group. -/
def help_match (l : List Char) : Bool :=
  isSubstr "sea otter".toList l &&
    ["help", "save", "injured", "hurt", "rescue", "what can i do"].any
      (fun w => isSubstr w.toList l)

/-- `ai.py` lines 76-80: the predator trigger group. -/
def pred_match (l : List Char) : Bool :=
  ["main predators of sea otters", "predators of sea otters", "sea otter predators",
   "who eats sea otters", "what eats sea otters", "who preys on sea otters",
   "enemy of sea otters", "predators of the sea otter"].any
    (fun w => isSubstr w.toList l)

/-- `ai.py` lines 84-89: the decline-drivers trigger group. -/
def decl_match (l : List Char) : Bool :=
  ["drivers of decline", "main drivers of decline", "current threats",
   "why are numbers declining", "causes of decline", "endangerment causes",
   "why are sea otters declining", "reasons for decline",
   "drivers of sea otter decline", "main drivers of sea otter decline today"].any
    (fun w => isSubstr w.toList l)

/-- `ai.py` line 66, `rule_answer`: the instant-FAQ rule table, checked in
declaration order: help/rescue, then predators, then decline drivers. -/
def rule_answer (q : List Char) : List Char :=
  if help_match (lower q) then HELP_ANSWER
  else if pred_match (lower q) then PREDATORS_ANSWER
  else if decl_match (lower q) then DRIVERS_ANSWER
  else []

/-- Outcome of one `requests.get` call: either the call raised (network
error or timeout — `requests` raises `Timeout` on its `timeout=1.4`
bound), or it returned a response with an `ok` flag and a body on which
`r.json()` either parsed (`Except.ok`) or raised (`Except.error`,
malformed payload). -/
inductive Fetch (α : Type) where
  | exn : Fetch α
  | resp (ok : Bool) (body : Except Unit α) : Fetch α

/-- Fields of the DuckDuckGo Instant Answer JSON that `ddg_answer` reads:
`AbstractText` (absent or empty modelled as `[]`) and `RelatedTopics`,
where an entry is `some t` when it is a dict carrying `"Text": t`, and
`none` when it is not a dict or has no `Text` key. -/
structure DdgJson where
  abstractText : List Char
  relatedTopics : List (Option (List Char))

/-- `ai.py` lines 111-113: scan `RelatedTopics` in order and return the
first dict entry with non-empty (truthy) `Text`. -/
def first_topic_text : List (Option (List Char)) → List Char
  | [] => []
  | some t :: rest => if t ≠ [] then t else first_topic_text rest
  | none :: rest => first_topic_text rest

/-- `ai.py` line 98, `ddg_answer`: "DuckDuckGo Instant Answer."  Empty on
any raised exception, non-ok status, or parse failure. -/
def ddg_answer (f : Fetch DdgJson) : List Char :=
  match f with
  | .exn => []
  | .resp ok body =>
    if ok = false then []
    else
      match body with
      | .error _ => []
      | .ok j =>
        if j.abstractText ≠ [] then j.abstractText
        else first_topic_text j.relatedTopics

/-- Fields of the Wikipedia page-search JSON that `wiki_title_search`
reads: the list of result pages, each reduced to its `title` (a page
with no `title` key contributes `[]`, Python's `.get("title", "")`);
a missing or null `pages` key is the empty list (`j.get("pages") or []`). -/
structure SearchJson where
  pages : List (List Char)

/-- `ai.py` line 118, `wiki_title_search`: top page title from Wikipedia
page search, empty on any failure. -/
def wiki_title_search (f : Fetch SearchJson) : List Char :=
  match f with
  | .exn => []
  | .resp ok body =>
    if ok = false then []
    else
      match body with
      | .error _ => []
      | .ok j =>
        match j.pages with
        | [] => []
        | t :: _ => t

/-- Field of the Wikipedia summary JSON that `wiki_summary_from_title`
reads: `extract` (missing key modelled as `[]`, Python's
`.get("extract", "")`). -/
structure SummaryJson where
  extract : List Char

/-- `ai.py` line 136, `wiki_summary_from_title`: summary extract for a
title, empty on any failure. -/
def wiki_summary_from_title (f : Fetch SummaryJson) : List Char :=
  match f with
  | .exn => []
  | .resp ok body =>
    if ok = false then []
    else
      match body with
      | .error _ => []
      | .ok j => j.extract

/-- `ai.py` line 149, `wiki_answer`: title search then summary fetch; the
summary request depends on the found title.  (`... or ""` in the source
maps an empty summary to the empty string, the identity here.) -/
def wiki_answer (search : Fetch SearchJson) (summary : List Char → Fetch SummaryJson) :
    List Char :=
  let title := wiki_title_search search
  if title = [] then []
  else wiki_summary_from_title (summary title)

/-- The two source adapters raced by `web_lookup` (`futs[0]` is
DuckDuckGo, `futs[1]` is Wikipedia). -/
inductive Adapter where
  | ddg : Adapter
  | wiki : Adapter
deriving DecidableEq

/-- `ai.py` line 166: the source label attached to a winning future,
`"DuckDuckGo" if fut == futs[0] else "Wikipedia"`. -/
def label : Adapter → List Char
  | .ddg => "DuckDuckGo".toList
  | .wiki => "Wikipedia".toList

/-- One request's view of the network: the outcome of each outbound call
(as a function of the query, resp. title, sent) plus the order in which
`as_completed` yielded the adapter futures before the 3.4 s race
deadline elapsed.  A proper prefix of a permutation of both adapters
models the deadline cutting the race short; the empty list models no
future completing in time. -/
structure NetEnv where
  ddg : List Char → Fetch DdgJson
  search : List Char → Fetch SearchJson
  summary : List Char → Fetch SummaryJson
  order : List Adapter

/-- The value `fut.result() or ""` of one adapter's future under
environment `env`, for the (already rewritten and shortened) query `q2`. -/
def adapterResult (env : NetEnv) (q2 : List Char) : Adapter → List Char
  | .ddg => ddg_answer (env.ddg q2)
  | .wiki => wiki_answer (env.search q2) env.summary

/-- `ai.py` line 159: the query actually sent to the adapters,
`short(clean(rewrite_for_topic(q)), 120)`. -/
def lookup_query (q : List Char) : List Char :=
  short (clean (rewrite_for_topic q)) 120

/-- `ai.py` lines 163-170: the `as_completed` loop.  Walk the completed
futures in completion order; the first whose result is non-empty after
`strip()` wins and is returned with its source label; if the order is
exhausted (all completed results unusable, or the `TimeoutError` of the
3.4 s deadline ended the loop) return `("", "")`. -/
def race (order : List Adapter) (res : Adapter → List Char) : List Char × List Char :=
  match order with
  | [] => ([], [])
  | a :: rest => if stripL (res a) ≠ [] then (res a, label a) else race rest res

/-- `ai.py` line 155, `web_lookup`: "Run DDG + Wikipedia in parallel and
return the first non-empty answer." -/
def web_lookup (env : NetEnv) (q : List Char) : List Char × List Char :=
  race env.order (adapterResult env (lookup_query q))

/-- `ai.py` line 174, `is_sea_otter_question`: "Only answer questions
that mention sea otters / otters." -/
def is_sea_otter_question (q : List Char) : Bool :=
  ["sea otter", "sea otters", "otter", "otters"].any
    (fun w => isSubstr w.toList (lower q))

/-- `ai.py` line 180 (verbatim). -/
def REFUSAL_1 : List Char :=
  "I’m focused on sea otters right now. Try asking me something about sea otters or their habitat. 🦦".toList

/-- `ai.py` line 181 (verbatim). -/
def REFUSAL_2 : List Char :=
  "I can’t answer that one, but I can help with sea otter facts, threats, or how to help them. 🦦".toList

/-- `ai.py` line 182 (verbatim). -/
def REFUSAL_3 : List Char :=
  "This bot is only trained for sea otter questions. Please ask me something about sea otters. 🌊🦦".toList

/-- `ai.py` line 179, `SEA_OTTER_ONLY_MESSAGES`: the fixed refusal pool. -/
def SEA_OTTER_ONLY_MESSAGES : List (List Char) := [REFUSAL_1, REFUSAL_2, REFUSAL_3]

/-- `random.choice(SEA_OTTER_ONLY_MESSAGES)`: selection by the hidden
random index, made explicit. -/
def pick_refusal : Fin 3 → List Char
  | 0 => REFUSAL_1
  | 1 => REFUSAL_2
  | 2 => REFUSAL_3

/-- `ai.py` line 185, `seems_relevant`: reject an answer that lacks
"otter" when the question mentions it. -/
def seems_relevant (ans q : List Char) : Bool :=
  if isSubstr "otter".toList (lower q) && !isSubstr "otter".toList (lower ans) then false
  else true

/-- `ai.py` lines 217-224 (verbatim fallback message). -/
def FALLBACK_ANSWER : List Char :=
  ("I couldn’t find a good answer right now. " ++
   "Try rephrasing your question, or ask me another sea otter question. 🦦").toList

/-- `ai.py` lines 208-231: steps 1-4 of `answer_question` after the
domain check — rule table, then web race, then relevance filter and
fallback, then truncation plus source suffix.  `q` is the already
stripped question. -/
def answer_core (env : NetEnv) (q : List Char) : List Char :=
  if rule_answer q ≠ [] then rule_answer q
  else if (web_lookup env q).1 = [] ∨ seems_relevant (web_lookup env q).1 q = false then
    FALLBACK_ANSWER
  else if (web_lookup env q).2 ≠ [] then
    short (web_lookup env q).1 240 ++ " (Source: ".toList ++ (web_lookup env q).2 ++ [')']
  else short (web_lookup env q).1 240

/-- `ai.py` line 198, `answer_question`: strip the question, refuse when
out of domain (random refusal indexed by `pick`), otherwise run the
rule table / web race pipeline. -/
def answer_question (pick : Fin 3) (env : NetEnv) (q : List Char) : List Char :=
  if is_sea_otter_question (stripL q) = false then pick_refusal pick
  else answer_core env (stripL q)

/-- Example environment: every outbound call raises (network down); both
futures complete, with empty results, before the deadline. -/
def exc_env : NetEnv :=
  ⟨fun _ => Fetch.exn, fun _ => Fetch.exn, fun _ => Fetch.exn,
   [Adapter.ddg, Adapter.wiki]⟩

/-- Example environment: DuckDuckGo returns an abstract and completes
first; the Wikipedia calls raise. -/
def exb_env : NetEnv :=
  ⟨fun _ =>
      Fetch.resp true
        (Except.ok ⟨"Sea otters eat sea urchins, crabs, clams, and snails.".toList, []⟩),
   fun _ => Fetch.exn, fun _ => Fetch.exn, [Adapter.ddg, Adapter.wiki]⟩

/-- Example environment: DuckDuckGo fails, Wikipedia search finds the
page titled "Sea otter". -/
def envT1 : NetEnv :=
  ⟨fun _ => Fetch.exn,
   fun _ => Fetch.resp true (Except.ok ⟨["Sea otter".toList]⟩),
   fun _ =>
      Fetch.resp true
        (Except.ok ⟨"The sea otter is a marine mammal native to the North Pacific.".toList⟩),
   [Adapter.ddg, Adapter.wiki]⟩

/-- Example environment: DuckDuckGo fails, Wikipedia search finds the
page titled "Giant otter". -/
def envT2 : NetEnv :=
  ⟨fun _ => Fetch.exn,
   fun _ => Fetch.resp true (Except.ok ⟨["Giant otter".toList]⟩),
   fun _ =>
      Fetch.resp true
        (Except.ok ⟨"The giant otter is a South American carnivorous mammal.".toList⟩),
   [Adapter.ddg, Adapter.wiki]⟩

/-! ## Shared lemmas -/

/-- `isPref` decides list prefixhood. -/
theorem isPref_iff (n t : List Char) : isPref n t = true ↔ n <+: t := by
  induction n generalizing t with
  | nil =>
    simp only [isPref]
    exact ⟨fun _ => ⟨t, rfl⟩, fun _ => trivial⟩
  | cons a as ih =>
    cases t with
    | nil =>
      simp only [isPref]
      constructor
      · intro h; cases h
      · rintro ⟨r, hr⟩; cases hr
    | cons b bs =>
      simp only [isPref, Bool.and_eq_true, beq_iff_eq, ih]
      constructor
      · rintro ⟨rfl, ⟨r, hr⟩⟩
        exact ⟨r, by simp [hr]⟩
      · rintro ⟨r, hr⟩
        rw [List.cons_append] at hr
        injection hr with h1 h2
        exact ⟨h1, r, h2⟩

/-- `isSubstr` decides Python's substring containment `n in h`. -/
theorem isSubstr_iff (n h : List Char) : isSubstr n h = true ↔ n <:+: h := by
  induction h with
  | nil =>
    cases n with
    | nil =>
      simp only [isSubstr, isPref]
      exact ⟨fun _ => ⟨[], [], rfl⟩, fun _ => trivial⟩
    | cons c cs =>
      simp only [isSubstr, isPref]
      constructor
      · intro hf; cases hf
      · rintro ⟨s, t, hst⟩
        rcases List.append_eq_nil.mp hst with ⟨h1, -⟩
        rcases List.append_eq_nil.mp h1 with ⟨-, h2⟩
        cases h2
  | cons c t ih =>
    simp only [isSubstr, Bool.or_eq_true, isPref_iff, ih]
    constructor
    · rintro (⟨r, hr⟩ | ⟨s, r, hr⟩)
      · exact ⟨[], r, by simpa using hr⟩
      · exact ⟨c :: s, r, by simp [← hr]⟩
    · rintro ⟨s, r, hr⟩
      cases s with
      | nil => exact Or.inl ⟨r, by simpa using hr⟩
      | cons x s =>
        right
        rw [List.cons_append, List.cons_append] at hr
        injection hr with h1 h2
        exact ⟨s, r, by simpa using h2⟩

/-- The race result's source label is always one of the two fixed source
names, or empty when nothing won. -/
theorem race_snd_cases (order : List Adapter) (res : Adapter → List Char) :
    (race order res).2 = [] ∨ (race order res).2 = "DuckDuckGo".toList ∨
      (race order res).2 = "Wikipedia".toList := by
  induction order with
  | nil => exact Or.inl rfl
  | cons a rest ih =>
    simp only [race]
    split
    · cases a
      · exact Or.inr (Or.inl rfl)
      · exact Or.inr (Or.inr rfl)
    · exact ih

/-- When the race yields a non-empty answer it also yields a non-empty
source label. -/
theorem race_fst_nil_or_snd_ne (order : List Adapter) (res : Adapter → List Char) :
    (race order res).1 = [] ∨ (race order res).2 ≠ [] := by
  induction order with
  | nil => exact Or.inl rfl
  | cons a rest ih =>
    simp only [race]
    split
    · right
      cases a
      · exact (by decide : label Adapter.ddg ≠ [])
      · exact (by decide : label Adapter.wiki ≠ [])
    · exact ih

/-- A race in which every completed adapter produced a whitespace-only
result yields the empty pair. -/
theorem race_all_empty (order : List Adapter) (res : Adapter → List Char)
    (h : ∀ a ∈ order, stripL (res a) = []) : race order res = ([], []) := by
  induction order with
  | nil => rfl
  | cons a rest ih =>
    simp only [race]
    rw [if_neg (by simp [h a (List.mem_cons_self a rest)])]
    exact ih fun x hx => h x (List.mem_cons_of_mem a hx)

/-- `short` never exceeds its limit (for any positive limit). -/
theorem short_len_le (t : List Char) (limit : Nat) (h : 1 ≤ limit) :
    (short t limit).length ≤ limit := by
  unfold short
  split
  · rw [List.length_append]
    have := List.length_take_le (limit - 1) (join_words t)
    simp only [List.length_singleton]
    omega
  · omega

/-- `rule_answer` returns one of the three canned answers or nothing. -/
theorem rule_answer_cases (q : List Char) :
    rule_answer q = HELP_ANSWER ∨ rule_answer q = PREDATORS_ANSWER ∨
      rule_answer q = DRIVERS_ANSWER ∨ rule_answer q = [] := by
  unfold rule_answer
  split
  · exact Or.inl rfl
  · split
    · exact Or.inr (Or.inl rfl)
    · split
      · exact Or.inr (Or.inr (Or.inl rfl))
      · exact Or.inr (Or.inr (Or.inr rfl))

/-- `answer_core` (the pipeline after the domain check) never returns the
empty string. -/
theorem answer_core_ne_nil (env : NetEnv) (q : List Char) : answer_core env q ≠ [] := by
  unfold answer_core
  split
  · rename_i h; exact h
  · split
    · decide
    · split
      · simp [List.append_eq_nil]
      · rename_i hrel hsrc
        push_neg at hrel
        rcases race_fst_nil_or_snd_ne env.order (adapterResult env (lookup_query q)) with
          hc | hc
        · exact absurd hc hrel.1
        · exact absurd hc hsrc

set_option maxRecDepth 8192 in
/-- `answer_core` output length is bounded by 373, the length of the
longest canned answer (`HELP_ANSWER`); web-derived replies are bounded
by 240 + 21 = 261 (truncation cap plus `" (Source: DuckDuckGo)"`). -/
theorem answer_core_len_le (env : NetEnv) (q : List Char) :
    (answer_core env q).length ≤ 373 := by
  unfold answer_core
  split
  · rcases rule_answer_cases q with h | h | h | h <;> rw [h] <;> decide
  · split
    · decide
    · have hs : (short (web_lookup env q).1 240).length ≤ 240 :=
        short_len_le _ 240 (by omega)
      have hl := race_snd_cases env.order (adapterResult env (lookup_query q))
      have e1 : (" (Source: ".toList : List Char).length = 10 := by decide
      have e2 : (("DuckDuckGo".toList : List Char)).length = 10 := by decide
      have e3 : (("Wikipedia".toList : List Char)).length = 9 := by decide
      split
      · rename_i hsrc
        rcases hl with h2 | h2 | h2
        · exact absurd h2 hsrc
        · simp only [web_lookup] at hs ⊢
          rw [h2]
          simp only [List.length_append, List.length_singleton, e1, e2]
          omega
        · simp only [web_lookup] at hs ⊢
          rw [h2]
          simp only [List.length_append, List.length_singleton, e1, e3]
          omega
      · omega

/-! ## Claims -/

/-- Claim C1: for every completion order of the two source adapters, the
resolver `web_lookup` returns the first completed adapter result that is
a non-empty, non-whitespace string, paired with that adapter's source
label; a later-completing non-empty result never overrides the earlier
one (the conclusion is independent of the other adapter's result), and —
`web_lookup` being a function into a single pair — at most one winning
result is returned per call. -/
theorem web_lookup_first_usable_wins (env : NetEnv) (q : List Char) (a b : Adapter)
    (ho : env.order = [a, b]) :
    (stripL (adapterResult env (lookup_query q) a) ≠ [] →
      web_lookup env q = (adapterResult env (lookup_query q) a, label a)) ∧
    (stripL (adapterResult env (lookup_query q) a) = [] →
      stripL (adapterResult env (lookup_query q) b) ≠ [] →
      web_lookup env q = (adapterResult env (lookup_query q) b, label b)) := by
  constructor
  · intro h
    unfold web_lookup
    rw [ho]
    simp only [race]
    rw [if_pos h]
  · intro h1 h2
    unfold web_lookup
    rw [ho]
    simp only [race]
    rw [if_neg (by simp [h1]), if_pos h2]

/-- Witness for C1: with DuckDuckGo completing first and returning an
abstract while Wikipedia fails, the race returns DuckDuckGo's answer
and label. -/
theorem web_lookup_first_usable_wins_witness :
    web_lookup exb_env "what do sea otters eat?".toList =
      (adapterResult exb_env (lookup_query "what do sea otters eat?".toList) Adapter.ddg,
        label Adapter.ddg) :=
  (web_lookup_first_usable_wins exb_env _ Adapter.ddg Adapter.wiki rfl).1 (by decide)

/-- Claim C3: if no adapter produced a usable (non-empty, non-whitespace)
result before the race deadline — the completion order was exhausted
with only unusable results, which also covers the `TimeoutError` path
where the order is a proper prefix of the adapters — `web_lookup`
returns the pair of empty answer and empty label.  The embedding is a
total function, mirroring that the Python code catches the timeout and
raises nothing. -/
theorem web_lookup_deadline_empty (env : NetEnv) (q : List Char)
    (h : ∀ a ∈ env.order, stripL (adapterResult env (lookup_query q) a) = []) :
    web_lookup env q = ([], []) :=
  race_all_empty env.order (adapterResult env (lookup_query q)) h

/-- Witness for C3: with the network down both adapters return empty and
the resolver declares failure. -/
theorem web_lookup_deadline_empty_witness :
    web_lookup exc_env "sea otter lifespan".toList = ([], []) :=
  web_lookup_deadline_empty exc_env _ (by decide)

/-- Claim C5: `rule_answer` checks its trigger groups in fixed priority
order — help/rescue first, then predators, then decline drivers — so a
question matching both the help/rescue and the predator group gets the
help/rescue canned answer, a question matching predators (but not
help/rescue) gets the predator answer even if it also matches decline
drivers, and a question matching no group gets the empty string. -/
theorem rule_answer_priority (q : List Char) :
    (help_match (lower q) = true → pred_match (lower q) = true →
      rule_answer q = HELP_ANSWER) ∧
    (help_match (lower q) = false → pred_match (lower q) = true →
      rule_answer q = PREDATORS_ANSWER) ∧
    (help_match (lower q) = false → pred_match (lower q) = false →
      decl_match (lower q) = false → rule_answer q = []) := by
  refine ⟨?_, ?_, ?_⟩
  · intro h1 _
    unfold rule_answer
    rw [if_pos h1]
  · intro h1 h2
    unfold rule_answer
    rw [if_neg (by simp [h1]), if_pos h2]
  · intro h1 h2 h3
    unfold rule_answer
    rw [if_neg (by simp [h1]), if_neg (by simp [h2]), if_neg (by simp [h3])]

/-- Witness for C5: a question matching both the help/rescue and the
predator trigger groups returns the help/rescue canned answer. -/
theorem rule_answer_priority_witness :
    help_match (lower "How can I help the predators of sea otters?".toList) = true ∧
    pred_match (lower "How can I help the predators of sea otters?".toList) = true ∧
    rule_answer "How can I help the predators of sea otters?".toList = HELP_ANSWER :=
  ⟨by decide, by decide,
    (rule_answer_priority "How can I help the predators of sea otters?".toList).1
      (by decide) (by decide)⟩

/-- Claim C7: every source adapter returns the empty string on a raised
exception (network error or the per-call timeout, both of which
`requests` surfaces as a raised exception), on a non-success HTTP status
(whatever the body), and on a malformed payload (`r.json()` raising);
`wiki_answer` additionally returns empty when the title search came back
empty.  Every adapter is embedded as a total function, mirroring that
the Python originals catch all exceptions and never propagate an error
to their caller. -/
theorem adapters_swallow_failures :
    (ddg_answer Fetch.exn = [] ∧ (∀ b, ddg_answer (Fetch.resp false b) = []) ∧
      ddg_answer (Fetch.resp true (Except.error ())) = []) ∧
    (wiki_title_search Fetch.exn = [] ∧
      (∀ b, wiki_title_search (Fetch.resp false b) = []) ∧
      wiki_title_search (Fetch.resp true (Except.error ())) = []) ∧
    (wiki_summary_from_title Fetch.exn = [] ∧
      (∀ b, wiki_summary_from_title (Fetch.resp false b) = []) ∧
      wiki_summary_from_title (Fetch.resp true (Except.error ())) = []) ∧
    (∀ s sm, wiki_title_search s = [] → wiki_answer s sm = []) := by
  refine ⟨⟨rfl, fun b => rfl, rfl⟩, ⟨rfl, fun b => rfl, rfl⟩,
    ⟨rfl, fun b => rfl, rfl⟩, ?_⟩
  intro s sm h
  unfold wiki_answer
  simp [h]

/-- Witness for C7: a Wikipedia lookup whose title search raised yields
the empty answer. -/
theorem adapters_swallow_failures_witness :
    wiki_answer Fetch.exn (fun _ => Fetch.exn) = [] :=
  adapters_swallow_failures.2.2.2 Fetch.exn (fun _ => Fetch.exn) rfl

/-- Claim C8 counterexample: the claim asserts `short text limit = text`
whenever `text.length ≤ limit`, but `short` collapses whitespace first:
`short "a  b" 4` returns `"a b"`, not the 4-character input `"a  b"`. -/
theorem short_not_input_cex :
    ("a  b".toList : List Char).length ≤ 4 ∧ (1 : Nat) < 4 ∧
    short "a  b".toList 4 ≠ "a  b".toList := by decide

/-- Claim C8 as amended: for every text and every limit > 1 the output of
`short text limit` has length at most `limit`; when the
whitespace-collapsed text exceeds `limit` characters it is cut to
`limit - 1` characters with an ellipsis appended; and the output equals
the whitespace-collapsed input (not necessarily the raw input) whenever
the collapsed input's length is at most `limit`. -/
theorem short_bounds (text : List Char) (limit : Nat) (hl : 1 < limit) :
    (short text limit).length ≤ limit ∧
    ((join_words text).length ≤ limit → short text limit = join_words text) ∧
    (limit < (join_words text).length →
      short text limit = (join_words text).take (limit - 1) ++ ['…']) := by
  refine ⟨short_len_le text limit (by omega), ?_, ?_⟩
  · intro hle
    unfold short
    rw [if_neg (by omega)]
  · intro hgt
    unfold short
    rw [if_pos hgt]

/-- Witness for C8 (amended): a short input with irregular whitespace is
returned collapsed, within the limit. -/
theorem short_bounds_witness :
    (short "  sea   otter  ".toList 240).length ≤ 240 ∧
    short "  sea   otter  ".toList 240 = join_words "  sea   otter  ".toList :=
  ⟨(short_bounds "  sea   otter  ".toList 240 (by decide)).1,
    (short_bounds "  sea   otter  ".toList 240 (by decide)).2.1 (by decide)⟩

set_option maxRecDepth 8192 in
/-- Claim C2 counterexample: `answer_question` on a help/rescue question
returns `HELP_ANSWER` verbatim — 373 characters, exceeding the 240
character cap; rule-table answers bypass `short` entirely. -/
theorem answer_question_exceeds_cap_cex :
    answer_question 0 exc_env "How can I help an injured sea otter?".toList =
      HELP_ANSWER ∧
    240 < HELP_ANSWER.length := by
  exact ⟨by decide, by decide⟩

set_option maxRecDepth 8192 in
/-- Claim C2 as amended: `answer_question` output length is bounded, but
by 373 (the length of the longest canned answer, `HELP_ANSWER`), not by
240: canned rule-table answers and the refusal/fallback messages bypass
the truncation, and web-derived replies are bounded by 240 plus the
21-character source suffix (261 total). -/
theorem answer_question_length_bounded (pick : Fin 3) (env : NetEnv) (q : List Char) :
    (answer_question pick env q).length ≤ 373 := by
  unfold answer_question
  split
  · revert pick; decide
  · exact answer_core_len_le env (stripL q)

set_option maxRecDepth 8192 in
/-- Claim C4: `answer_question` always returns a non-empty string; it is
embedded as a total function (the source catches every exception on
this path), so it never throws. -/
theorem answer_question_ne_nil (pick : Fin 3) (env : NetEnv) (q : List Char) :
    answer_question pick env q ≠ [] := by
  unfold answer_question
  split
  · revert pick; decide
  · exact answer_core_ne_nil env (stripL q)

set_option maxRecDepth 8192 in
/-- Claim C6 counterexample: two runs in which the encyclopedia adapter
wins using different page titles ("Sea otter" vs "Giant otter") return
the identical source label, the constant `"Wikipedia"` — so the label
cannot identify which specific page title was used. -/
theorem wiki_label_omits_title_cex :
    stripL (web_lookup envT1 "tell me about otters".toList).1 ≠ [] ∧
    stripL (web_lookup envT2 "tell me about otters".toList).1 ≠ [] ∧
    wiki_title_search (envT1.search (lookup_query "tell me about otters".toList)) ≠
      wiki_title_search (envT2.search (lookup_query "tell me about otters".toList)) ∧
    (web_lookup envT1 "tell me about otters".toList).2 =
      (web_lookup envT2 "tell me about otters".toList).2 ∧
    (web_lookup envT1 "tell me about otters".toList).2 = "Wikipedia".toList := by
  decide

/-- Claim C6 as amended: the source label returned by the resolver only
identifies which source produced the answer — it is always the empty
string, the constant `"DuckDuckGo"`, or the constant `"Wikipedia"` — and
in particular, when the encyclopedia adapter wins, it does not include
the specific page title that was used. -/
theorem web_lookup_label_fixed (env : NetEnv) (q : List Char) :
    (web_lookup env q).2 = [] ∨ (web_lookup env q).2 = "DuckDuckGo".toList ∨
      (web_lookup env q).2 = "Wikipedia".toList :=
  race_snd_cases env.order (adapterResult env (lookup_query q))

set_option maxRecDepth 8192 in
/-- Claim C9: when the domain check rejects the (stripped) question,
`answer_question` returns the refusal selected by the random index —
a member of the fixed refusal pool — and its result is independent of
the entire network environment, so no source adapter's result is ever
observed (no network call is made). -/
theorem out_of_domain_refusal (pick : Fin 3) (env env' : NetEnv) (q : List Char)
    (h : is_sea_otter_question (stripL q) = false) :
    answer_question pick env q = pick_refusal pick ∧
    pick_refusal pick ∈ SEA_OTTER_ONLY_MESSAGES ∧
    answer_question pick env q = answer_question pick env' q := by
  refine ⟨?_, ?_, ?_⟩
  · unfold answer_question
    rw [if_pos h]
  · revert pick; decide
  · unfold answer_question
    rw [if_pos h, if_pos h]

/-- Witness for C9: an out-of-domain question gets the first refusal
message under any environment, failed or successful network alike. -/
theorem out_of_domain_refusal_witness :
    answer_question 0 exc_env "what is the weather today".toList = pick_refusal 0 ∧
    pick_refusal 0 ∈ SEA_OTTER_ONLY_MESSAGES ∧
    answer_question 0 exc_env "what is the weather today".toList =
      answer_question 0 exb_env "what is the weather today".toList :=
  out_of_domain_refusal 0 exc_env exb_env "what is the weather today".toList (by decide)

/-- Claim C10: any question whose lowercase (stripped) form contains
"otter" anywhere as a substring — also inside unrelated words such as
"Potter" — passes the domain check, so `answer_question` bypasses the
refusal and proceeds to the rule table and the network race
(`answer_core`). -/
theorem otter_substring_in_domain (pick : Fin 3) (env : NetEnv) (q : List Char)
    (h : "otter".toList <:+: lower (stripL q)) :
    is_sea_otter_question (stripL q) = true ∧
    answer_question pick env q = answer_core env (stripL q) := by
  have hs : isSubstr "otter".toList (lower (stripL q)) = true := (isSubstr_iff _ _).mpr h
  have hd : is_sea_otter_question (stripL q) = true := by
    unfold is_sea_otter_question
    rw [List.any_eq_true]
    exact ⟨"otter", by decide, hs⟩
  refine ⟨hd, ?_⟩
  unfold answer_question
  rw [if_neg (by simp [hd])]

/-- Witness for C10: "Who is Harry Potter?" contains "otter" inside
"Potter", is classified in-domain, and is routed past the refusal into
the rule-table / race pipeline. -/
theorem otter_substring_in_domain_witness :
    is_sea_otter_question (stripL "Who is Harry Potter?".toList) = true ∧
    answer_question 1 exc_env "Who is Harry Potter?".toList =
      answer_core exc_env (stripL "Who is Harry Potter?".toList) :=
  otter_substring_in_domain 1 exc_env "Who is Harry Potter?".toList
    ((isSubstr_iff "otter".toList (lower (stripL "Who is Harry Potter?".toList))).mp
      (by decide))
